import Mathlib

/-!
Verification of the OnlysaidKB MCP server adapter
(src/onlysaidkb_mcp/server.py and src/onlysaidkb_mcp/main.py).

The adapter translates tool invocations into HTTP calls against a backend
knowledge-base API and normalizes every failure into a returned value.
We embed the JSON data flowing through the adapter as an inductive value
type, Python dicts as insertion-ordered association lists, and the outcome
of the single HTTP request each call makes as an explicit sum type
(decoded body / `httpx.HTTPStatusError` / any other exception).  Each tool
function is then a total Lean function of its arguments and that outcome:
totality is the embedding of "never raises past the tool boundary".
-/

/-- JSON values, as decoded by `response.json()` in `make_api_request`.
Objects keep field order, mirroring Python dict insertion order. -/
inductive JValue where
  | null
  | bool (b : Bool)
  | num (n : Int)
  | str (s : String)
  | arr (xs : List JValue)
  | obj (fields : List (String × JValue))

/-- Python `d[k]` / `k in d` lookup on an insertion-ordered dict. -/
def lookupField : List (String × JValue) → String → Option JValue
  | [], _ => none
  | (k', v) :: rest, k => if k' = k then some v else lookupField rest k

/-- Python dict assignment `d[k] = v`: replaces the value in place when the
key is present, appends `(k, v)` otherwise. -/
def setField : List (String × JValue) → String → JValue → List (String × JValue)
  | [], k, v => [(k, v)]
  | (k', v') :: rest, k, v =>
    if k' = k then (k, v) :: rest else (k', v') :: setField rest k v

/-- `dict.get(k, default)` on a decoded JSON value; `.get` only exists on
dicts, every other Python type lacks the attribute. -/
def JValue.isObj : JValue → Bool
  | .obj _ => true
  | _ => false

def getField : JValue → String → Option JValue
  | .obj fields, k => lookupField fields k
  | _, _ => none

/-- The configuration dataclass `OnlysaidKBConfig` (server.py lines 23-31). -/
structure OnlysaidKBConfig where
  base_url : String
  default_model : String
  default_top_k : Int
  default_language : String
  timeout : Int
deriving Repr, DecidableEq

/-- `os.getenv(key, default)`: the process environment is a partial map
from variable names to strings. -/
def getenvD (env : String → Option String) (key default : String) : String :=
  (env key).getD default

def digitVal (c : Char) : Option Nat :=
  if '0' ≤ c ∧ c ≤ '9' then some (c.toNat - '0'.toNat) else none

def parseNatAux : List Char → Nat → Option Nat
  | [], acc => some acc
  | c :: cs, acc =>
      match digitVal c with
      | some d => parseNatAux cs (acc * 10 + d)
      | none => none

/-- `int(s)` on a decimal string: an optional sign followed by a nonempty
digit sequence; `none` models the `ValueError` raised otherwise. -/
def pyInt (s : String) : Option Int :=
  match s.data with
  | [] => none
  | '-' :: cs =>
      match cs with
      | [] => none
      | _ => (parseNatAux cs 0).map (fun n => -(n : Int))
  | cs => (parseNatAux cs 0).map (fun n => (n : Int))

/-- Construction of the module-level `config = OnlysaidKBConfig()`
(server.py lines 23-31): each field reads its environment variable with a
literal fallback; `int(...)` on the two numeric settings raises
`ValueError` (modelled as `none`) when the string does not parse. -/
def configLoad (env : String → Option String) : Option OnlysaidKBConfig :=
  match pyInt (getenvD env "ONLYSAIDKB_DEFAULT_TOP_K" "5"),
        pyInt (getenvD env "ONLYSAIDKB_TIMEOUT" "30") with
  | some k, some t =>
      some { base_url := getenvD env "ONLYSAIDKB_BASE_URL" "http://onlysaid-dev.com/api/kb"
             default_model := getenvD env "ONLYSAIDKB_DEFAULT_MODEL" "gpt-4"
             default_top_k := k
             default_language := getenvD env "ONLYSAIDKB_DEFAULT_LANGUAGE" "en"
             timeout := t }
  | _, _ => none

/-- Python truthiness of an optional list argument: `None` and `[]` are falsy. -/
def truthyOptList (o : Option (List String)) : Bool :=
  match o with
  | none => false
  | some l => !l.isEmpty

/-- Python truthiness of an optional string argument: `None` and `""` are falsy. -/
def truthyOptStr (o : Option String) : Bool :=
  match o with
  | none => false
  | some s => s != ""

/-- Python truthiness of an optional int argument: `None` and `0` are falsy. -/
def truthyOptInt (o : Option Int) : Bool :=
  match o with
  | none => false
  | some n => n != 0

def strList (l : List String) : JValue := .arr (l.map .str)

/-- The payload built by `query_knowledge_base` (server.py lines 86-104):
required fields plus each optional field appended only when truthy, in
source order. -/
def buildQueryPayload (workspace_id query : String)
    (knowledge_bases : Option (List String)) (model : Option String)
    (conversation_history : Option (List String)) (top_k : Option Int)
    (preferred_language : Option String) (message_id : Option String) :
    List (String × JValue) :=
  let p := [("workspace_id", JValue.str workspace_id),
            ("query", JValue.str query),
            ("streaming", JValue.bool false)]
  let p := if truthyOptList knowledge_bases then
             p ++ [("knowledge_bases", strList (knowledge_bases.getD []))] else p
  let p := if truthyOptList conversation_history then
             p ++ [("conversation_history", strList (conversation_history.getD []))] else p
  let p := if truthyOptInt top_k then
             p ++ [("top_k", JValue.num (top_k.getD 0))] else p
  let p := if truthyOptStr model then
             p ++ [("model", JValue.str (model.getD ""))] else p
  let p := if truthyOptStr preferred_language then
             p ++ [("preferred_language", JValue.str (preferred_language.getD ""))] else p
  let p := if truthyOptStr message_id then
             p ++ [("message_id", JValue.str (message_id.getD ""))] else p
  p

/-- The payload built by `retrieve_from_knowledge_base` (server.py lines
172-180): `top_k` is `top_k or config.default_top_k`, i.e. the caller's
value when truthy, the configured default otherwise. -/
def buildRetrievePayload (config : OnlysaidKBConfig) (workspace_id query : String)
    (knowledge_bases : Option (List String)) (top_k : Option Int) :
    List (String × JValue) :=
  let p := [("workspace_id", JValue.str workspace_id),
            ("query", JValue.str query),
            ("top_k", JValue.num (if truthyOptInt top_k then top_k.getD 0
                                  else config.default_top_k))]
  if truthyOptList knowledge_bases then
    p ++ [("knowledge_bases", strList (knowledge_bases.getD []))] else p

/-- Outcome of `make_api_request` as observed by the caller's `try` block:
either the decoded JSON body of a success response, an
`httpx.HTTPStatusError` raised by `response.raise_for_status()` carrying
the numeric status and the response body text, or any other exception
(timeout, connection refused, DNS failure, malformed body in
`response.json()`, ...) carrying its `str(e)` description. -/
inductive ApiOutcome where
  | success (body : JValue)
  | statusError (status : Nat) (text : String)
  | generalError (msg : String)

def pyTypeName : JValue → String
  | .null => "NoneType"
  | .bool _ => "bool"
  | .num _ => "int"
  | .str _ => "str"
  | .arr _ => "list"
  | .obj _ => "dict"

/-- `str(e)` of the `TypeError` raised by `result["_debug"] = ...` when the
decoded body is not a dict. -/
def nonMappingAssignMsg (v : JValue) : String :=
  match v with
  | .arr _ => "list indices must be integers or slices, not str"
  | v => "'" ++ pyTypeName v ++ "' object does not support item assignment"

/-- The `_debug` object attached on the query success path
(server.py lines 110-119). -/
def queryDebugSuccess (config : OnlysaidKBConfig)
    (payload : List (String × JValue)) : JValue :=
  .obj [("query_parameters", .obj payload),
        ("endpoint_used", .str "/query"),
        ("config_used", .obj
          [("base_url", .str config.base_url),
           ("default_model", .str config.default_model),
           ("default_top_k", .num config.default_top_k),
           ("default_language", .str config.default_language)])]

/-- `query_knowledge_base` (server.py lines 52-144) as a total function of
its arguments and of the HTTP outcome.  Totality over `ApiOutcome` is the
embedding of "every failure path resolves to a returned value": the
source wraps the request in `try` with handlers for `httpx.HTTPStatusError`
and for every other `Exception`.  A success body that is not a dict makes
`result["_debug"] = ...` raise `TypeError`, which the generic handler
converts to a general_error result. -/
def query_knowledge_base (config : OnlysaidKBConfig)
    (workspace_id query : String)
    (knowledge_bases : Option (List String)) (model : Option String)
    (conversation_history : Option (List String)) (top_k : Option Int)
    (preferred_language : Option String) (message_id : Option String)
    (outcome : ApiOutcome) : List (String × JValue) :=
  let payload := buildQueryPayload workspace_id query knowledge_bases model
    conversation_history top_k preferred_language message_id
  match outcome with
  | .success (.obj fields) =>
      setField fields "_debug" (queryDebugSuccess config payload)
  | .success v =>
      [("error", .str (nonMappingAssignMsg v)),
       ("_debug", .obj [("query_parameters", .obj payload),
                        ("endpoint_used", .str "/query"),
                        ("error_type", .str "general_error")])]
  | .statusError s t =>
      [("error", .str ("HTTP " ++ toString s ++ ": " ++ t)),
       ("status_code", .num s),
       ("_debug", .obj [("query_parameters", .obj payload),
                        ("endpoint_used", .str "/query"),
                        ("error_type", .str "http_error")])]
  | .generalError m =>
      [("error", .str m),
       ("_debug", .obj [("query_parameters", .obj payload),
                        ("endpoint_used", .str "/query"),
                        ("error_type", .str "general_error")])]

/-- The `_debug` object attached on the retrieve success path
(server.py lines 186-193). -/
def retrieveDebugSuccess (config : OnlysaidKBConfig)
    (payload : List (String × JValue)) : JValue :=
  .obj [("retrieval_parameters", .obj payload),
        ("endpoint_used", .str "/retrieve"),
        ("config_used", .obj
          [("base_url", .str config.base_url),
           ("default_top_k", .num config.default_top_k)])]

/-- `retrieve_from_knowledge_base` (server.py lines 146-218), embedded the
same way as `query_knowledge_base`. -/
def retrieve_from_knowledge_base (config : OnlysaidKBConfig)
    (workspace_id query : String)
    (knowledge_bases : Option (List String)) (top_k : Option Int)
    (outcome : ApiOutcome) : List (String × JValue) :=
  let payload := buildRetrievePayload config workspace_id query knowledge_bases top_k
  match outcome with
  | .success (.obj fields) =>
      setField fields "_debug" (retrieveDebugSuccess config payload)
  | .success v =>
      [("error", .str (nonMappingAssignMsg v)),
       ("_debug", .obj [("retrieval_parameters", .obj payload),
                        ("endpoint_used", .str "/retrieve"),
                        ("error_type", .str "general_error")])]
  | .statusError s t =>
      [("error", .str ("HTTP " ++ toString s ++ ": " ++ t)),
       ("status_code", .num s),
       ("_debug", .obj [("retrieval_parameters", .obj payload),
                        ("endpoint_used", .str "/retrieve"),
                        ("error_type", .str "http_error")])]
  | .generalError m =>
      [("error", .str m),
       ("_debug", .obj [("retrieval_parameters", .obj payload),
                        ("endpoint_used", .str "/retrieve"),
                        ("error_type", .str "general_error")])]

def jsonEscapeChar (c : Char) : String :=
  if c = '"' then "\\\""
  else if c = '\\' then "\\\\"
  else if c = '\n' then "\\n"
  else if c = '\t' then "\\t"
  else if c = '\r' then "\\r"
  else String.singleton c

def jsonEscape (s : String) : String := String.join (s.data.map jsonEscapeChar)

mutual

/-- `json.dumps` on a decoded JSON value, modelled up to whitespace (the
source passes `indent=2`; the claims only depend on which value is
serialized, not on the indentation). -/
def jsonDumps : JValue → String
  | .null => "null"
  | .bool true => "true"
  | .bool false => "false"
  | .num n => toString n
  | .str s => "\"" ++ jsonEscape s ++ "\""
  | .arr xs => "[" ++ jsonDumpsList xs ++ "]"
  | .obj fs => "\x7b" ++ jsonDumpsFields fs ++ "\x7d"

def jsonDumpsList : List JValue → String
  | [] => ""
  | [x] => jsonDumps x
  | x :: y :: rest => jsonDumps x ++ ", " ++ jsonDumpsList (y :: rest)

def jsonDumpsFields : List (String × JValue) → String
  | [] => ""
  | [(k, v)] => "\"" ++ jsonEscape k ++ "\": " ++ jsonDumps v
  | (k, v) :: f :: rest =>
      "\"" ++ jsonEscape k ++ "\": " ++ jsonDumps v ++ ", " ++
        jsonDumpsFields (f :: rest)

end

/-- `str(e)` of the `AttributeError` raised by `result.get(...)` when the
decoded body is not a dict. -/
def noGetAttrMsg (v : JValue) : String :=
  "'" ++ pyTypeName v ++ "' object has no attribute 'get'"

/-- `list_knowledge_bases_resource` (server.py lines 221-236): its `try`
block either has the decoded body of `GET /view/{workspace_id}` or the
`str(e)` of whatever exception the request raised.  On a decoded dict it
serializes `result.get("dataSources", [])`; any exception (including the
`AttributeError` from `.get` on a non-dict body) becomes a prefixed
error string. -/
def list_knowledge_bases_resource (r : Except String JValue) : String :=
  match r with
  | .ok (.obj fields) => jsonDumps ((lookupField fields "dataSources").getD (.arr []))
  | .ok v => "Error retrieving knowledge bases: " ++ noGetAttrMsg v
  | .error e => "Error retrieving knowledge bases: " ++ e

/-- `knowledge_base_status_resource` (server.py lines 238-251): serializes
the whole decoded body of `GET /kb_status/{workspace_id}/{kb_id}`, or
returns a prefixed error string on any exception. -/
def knowledge_base_status_resource (r : Except String JValue) : String :=
  match r with
  | .ok v => jsonDumps v
  | .error e => "Error retrieving knowledge base status: " ++ e

/-- `workspace_structure_resource` (server.py lines 253-265): serializes
the whole decoded body of `GET /view/{workspace_id}`, or returns a
prefixed error string on any exception. -/
def workspace_structure_resource (r : Except String JValue) : String :=
  match r with
  | .ok v => jsonDumps v
  | .error e => "Error retrieving workspace structure: " ++ e

/-- `required_vars` in `setup_environment` (main.py line 11). -/
def required_vars : List String := ["ONLYSAIDKB_BASE_URL"]

/-- The `missing_vars` list accumulated by `setup_environment`
(main.py lines 12-17): a variable is missing when `os.getenv` returns
`None` or a falsy (empty) string. -/
def missing_vars (env : String → Option String) : List String :=
  required_vars.filter fun v =>
    match env v with
    | none => true
    | some s => s == ""

/-- The diagnostic printed when required variables are missing
(main.py line 22). -/
def missingVarsMessage (missing : List String) : String :=
  "[ERROR] Missing required environment variables: " ++
    String.intercalate ", " missing

/-- `setup_environment` (main.py lines 6-36): true exactly when no
required variable is missing. -/
def setup_environment (env : String → Option String) : Bool :=
  (missing_vars env).isEmpty

/-- What `run_server` (main.py lines 38-48) does to the process: either
`sys.exit(1)` before any server or connection activity, or reaching
`mcp.run(transport="stdio")`.  No backend request is issued before the
exit: `setup_environment` only reads the environment and prints. -/
inductive RunOutcome where
  | exitCode (c : Nat)
  | serverRunning
deriving Repr, DecidableEq

def run_server (env : String → Option String) : RunOutcome :=
  if setup_environment env then .serverRunning else .exitCode 1

/-- Navigation into the `_debug` object of a result. -/
def debugGet (res : List (String × JValue)) (k : String) : Option JValue :=
  (lookupField res "_debug").bind fun d => getField d k

/-- Navigation into an object nested inside `_debug` (e.g. the sent
payload under `query_parameters`). -/
def debugGet2 (res : List (String × JValue)) (pk k : String) : Option JValue :=
  (debugGet res pk).bind fun p => getField p k

/-- A concrete configuration used to instantiate the theorems: the value
`configLoad` produces when the environment sets only
`ONLYSAIDKB_BASE_URL=http://localhost:8000`. -/
def cfgEx : OnlysaidKBConfig :=
  { base_url := "http://localhost:8000"
    default_model := "gpt-4"
    default_top_k := 5
    default_language := "en"
    timeout := 30 }

/- Helper lemmas about the dict embedding. -/

theorem lookupField_append (a b : List (String × JValue)) (k : String) :
    lookupField (a ++ b) k =
      match lookupField a k with
      | some v => some v
      | none => lookupField b k := by
  induction a with
  | nil => simp [lookupField]
  | cons p rest ih =>
      obtain ⟨k0, v0⟩ := p
      by_cases h : k0 = k <;> simp [lookupField, h, ih]

theorem lookupField_setField_self (l : List (String × JValue)) (k : String)
    (v : JValue) : lookupField (setField l k v) k = some v := by
  induction l with
  | nil => simp [setField, lookupField]
  | cons p rest ih =>
      obtain ⟨k0, v0⟩ := p
      by_cases h : k0 = k <;> simp [setField, h, lookupField, ih]

theorem lookupField_setField_ne (l : List (String × JValue)) (k k' : String)
    (v : JValue) (h : k' ≠ k) :
    lookupField (setField l k' v) k = lookupField l k := by
  induction l with
  | nil => simp [setField, lookupField, h]
  | cons p rest ih =>
      obtain ⟨k0, v0⟩ := p
      by_cases h0 : k0 = k'
      · subst h0
        simp [setField, lookupField, h]
      · by_cases h1 : k0 = k <;>
          simp [setField, h0, lookupField, h1, ih, Ne.symm h]

theorem setField_not_mem (l : List (String × JValue)) (k : String) (v : JValue)
    (h : k ∉ l.map Prod.fst) : setField l k v = l ++ [(k, v)] := by
  induction l with
  | nil => simp [setField]
  | cons p rest ih =>
      obtain ⟨k0, v0⟩ := p
      simp only [List.map_cons, List.mem_cons] at h
      push_neg at h
      have hk0 : ¬ k0 = k := fun he => h.1 he.symm
      simp [setField, hk0, ih h.2]

/-- The query payload in flattened form: the three required fields
followed by each optional field exactly when it is truthy. -/
theorem buildQueryPayload_eq (ws q : String) (kb ch : Option (List String))
    (m pl mid : Option String) (tk : Option Int) :
    buildQueryPayload ws q kb m ch tk pl mid =
      [("workspace_id", JValue.str ws), ("query", JValue.str q),
       ("streaming", JValue.bool false)]
      ++ (if truthyOptList kb then [("knowledge_bases", strList (kb.getD []))] else [])
      ++ (if truthyOptList ch then [("conversation_history", strList (ch.getD []))] else [])
      ++ (if truthyOptInt tk then [("top_k", JValue.num (tk.getD 0))] else [])
      ++ (if truthyOptStr m then [("model", JValue.str (m.getD ""))] else [])
      ++ (if truthyOptStr pl then [("preferred_language", JValue.str (pl.getD ""))] else [])
      ++ (if truthyOptStr mid then [("message_id", JValue.str (mid.getD ""))] else []) := by
  unfold buildQueryPayload
  cases truthyOptList kb <;> cases truthyOptList ch <;> cases truthyOptInt tk <;>
    cases truthyOptStr m <;> cases truthyOptStr pl <;> cases truthyOptStr mid <;> simp

theorem buildQueryPayload_lookup_streaming (ws q : String)
    (kb ch : Option (List String)) (m pl mid : Option String) (tk : Option Int) :
    lookupField (buildQueryPayload ws q kb m ch tk pl mid) "streaming" =
      some (.bool false) := by
  rw [buildQueryPayload_eq]
  simp [lookupField_append, lookupField]

/-- C1: every non-status failure of the HTTP call or of response handling
resolves — for both `query_knowledge_base` and
`retrieve_from_knowledge_base` — to a returned mapping whose `error`
field holds the failure description, which has no `status_code` field,
and whose debug object records the sent payload, the endpoint used and
`error_type = "general_error"`.  Exceptions never propagate: both
embedded operations are total over every `ApiOutcome`. -/
theorem C1_general_error_resolves (config : OnlysaidKBConfig)
    (ws q : String) (kb ch : Option (List String)) (m pl mid : Option String)
    (tk : Option Int) (msg : String) :
    let qres := query_knowledge_base config ws q kb m ch tk pl mid
      (.generalError msg)
    let rres := retrieve_from_knowledge_base config ws q kb tk
      (.generalError msg)
    lookupField qres "error" = some (.str msg) ∧
    lookupField qres "status_code" = none ∧
    debugGet qres "error_type" = some (.str "general_error") ∧
    debugGet qres "endpoint_used" = some (.str "/query") ∧
    debugGet qres "query_parameters" =
      some (.obj (buildQueryPayload ws q kb m ch tk pl mid)) ∧
    lookupField rres "error" = some (.str msg) ∧
    lookupField rres "status_code" = none ∧
    debugGet rres "error_type" = some (.str "general_error") ∧
    debugGet rres "endpoint_used" = some (.str "/retrieve") ∧
    debugGet rres "retrieval_parameters" =
      some (.obj (buildRetrievePayload config ws q kb tk)) :=
  ⟨rfl, rfl, rfl, rfl, rfl, rfl, rfl, rfl, rfl, rfl⟩

set_option maxHeartbeats 1600000 in
/-- C3: a backend status error raised by the client library yields, for
both operations, `error = "HTTP <status>: <response body text>"`, a
`status_code` field holding the numeric status, and a debug object with
the sent payload, the endpoint used and `error_type = "http_error"`; in
particular a 404 response with body "not found" yields
`error = "HTTP 404: not found"` and `status_code = 404`. -/
theorem C3_http_status_error_shape (config : OnlysaidKBConfig)
    (ws q : String) (kb ch : Option (List String)) (m pl mid : Option String)
    (tk : Option Int) (s : Nat) (t : String) :
    let qres := query_knowledge_base config ws q kb m ch tk pl mid
      (.statusError s t)
    let rres := retrieve_from_knowledge_base config ws q kb tk
      (.statusError s t)
    lookupField qres "error" = some (.str ("HTTP " ++ toString s ++ ": " ++ t)) ∧
    lookupField qres "status_code" = some (.num s) ∧
    debugGet qres "error_type" = some (.str "http_error") ∧
    debugGet qres "endpoint_used" = some (.str "/query") ∧
    debugGet qres "query_parameters" =
      some (.obj (buildQueryPayload ws q kb m ch tk pl mid)) ∧
    lookupField rres "error" = some (.str ("HTTP " ++ toString s ++ ": " ++ t)) ∧
    lookupField rres "status_code" = some (.num s) ∧
    debugGet rres "error_type" = some (.str "http_error") ∧
    debugGet rres "endpoint_used" = some (.str "/retrieve") ∧
    debugGet rres "retrieval_parameters" =
      some (.obj (buildRetrievePayload config ws q kb tk)) ∧
    lookupField (query_knowledge_base cfgEx "w" "q" none none none none none
      none (.statusError 404 "not found")) "error" =
      some (.str "HTTP 404: not found") ∧
    lookupField (query_knowledge_base cfgEx "w" "q" none none none none none
      none (.statusError 404 "not found")) "status_code" = some (.num 404) :=
  ⟨rfl, rfl, rfl, rfl, rfl, rfl, rfl, rfl, rfl, rfl, rfl, rfl⟩

/-- C2: the query payload holds exactly the keys `workspace_id`, `query`
(bound to the caller's query text) and `streaming` (bound to `false`),
plus each optional field exactly when the caller's value is truthy; an
empty list, an empty string, and a caller-supplied `top_k` of 0 are
omitted. -/
theorem C2_query_payload_exact (ws q : String) (kb ch : Option (List String))
    (m pl mid : Option String) (tk : Option Int) :
    (buildQueryPayload ws q kb m ch tk pl mid).map Prod.fst =
      ["workspace_id", "query", "streaming"]
      ++ (if truthyOptList kb then ["knowledge_bases"] else [])
      ++ (if truthyOptList ch then ["conversation_history"] else [])
      ++ (if truthyOptInt tk then ["top_k"] else [])
      ++ (if truthyOptStr m then ["model"] else [])
      ++ (if truthyOptStr pl then ["preferred_language"] else [])
      ++ (if truthyOptStr mid then ["message_id"] else []) ∧
    lookupField (buildQueryPayload ws q kb m ch tk pl mid) "workspace_id" =
      some (.str ws) ∧
    lookupField (buildQueryPayload ws q kb m ch tk pl mid) "query" =
      some (.str q) ∧
    lookupField (buildQueryPayload ws q kb m ch tk pl mid) "streaming" =
      some (.bool false) ∧
    lookupField (buildQueryPayload ws q kb m ch tk pl mid) "knowledge_bases" =
      (if truthyOptList kb then some (strList (kb.getD [])) else none) ∧
    lookupField (buildQueryPayload ws q kb m ch tk pl mid) "conversation_history" =
      (if truthyOptList ch then some (strList (ch.getD [])) else none) ∧
    lookupField (buildQueryPayload ws q kb m ch tk pl mid) "top_k" =
      (if truthyOptInt tk then some (.num (tk.getD 0)) else none) ∧
    lookupField (buildQueryPayload ws q kb m ch tk pl mid) "model" =
      (if truthyOptStr m then some (.str (m.getD "")) else none) ∧
    lookupField (buildQueryPayload ws q kb m ch tk pl mid) "preferred_language" =
      (if truthyOptStr pl then some (.str (pl.getD "")) else none) ∧
    lookupField (buildQueryPayload ws q kb m ch tk pl mid) "message_id" =
      (if truthyOptStr mid then some (.str (mid.getD "")) else none) := by
  rw [buildQueryPayload_eq]
  cases truthyOptList kb <;> cases truthyOptList ch <;> cases truthyOptInt tk <;>
    cases truthyOptStr m <;> cases truthyOptStr pl <;> cases truthyOptStr mid <;>
    simp [lookupField]

/-- C4 counterexample: with the example configuration (default top-k 5), a
caller-supplied `top_k` of 0 is not placed in the retrieve payload — the
source computes `top_k or config.default_top_k`, so the payload carries 5,
not the caller's 0. -/
theorem C4_zero_top_k_counterexample :
    lookupField (buildRetrievePayload cfgEx "w" "q" none (some 0)) "top_k"
      ≠ some (JValue.num 0) := by
  intro h
  rw [show lookupField (buildRetrievePayload cfgEx "w" "q" none (some 0))
        "top_k" = some (JValue.num 5) from rfl] at h
  injection h with h1
  injection h1 with h2
  exact absurd h2 (by decide)

/-- C4 (amended): the retrieve payload holds exactly `workspace_id`,
`query` and `top_k` — where `top_k` is the caller's value when the caller
supplied a nonzero one and the configured default otherwise (absent or 0)
— plus `knowledge_bases` exactly when the caller supplied a non-empty
list; without `knowledge_base_ids` the payload has no `knowledge_bases`
key at all. -/
theorem C4_retrieve_payload_amended (config : OnlysaidKBConfig)
    (ws q : String) (kb : Option (List String)) (tk : Option Int) :
    let p := buildRetrievePayload config ws q kb tk
    p.map Prod.fst = ["workspace_id", "query", "top_k"]
      ++ (if truthyOptList kb then ["knowledge_bases"] else []) ∧
    lookupField p "workspace_id" = some (.str ws) ∧
    lookupField p "query" = some (.str q) ∧
    lookupField p "top_k" =
      some (.num (if truthyOptInt tk then tk.getD 0 else config.default_top_k)) ∧
    lookupField p "knowledge_bases" =
      (if truthyOptList kb then some (strList (kb.getD [])) else none) := by
  unfold buildRetrievePayload
  cases truthyOptList kb <;> cases truthyOptInt tk <;> simp [lookupField]

/-- C5: on a successful backend response (a JSON mapping), both operations
return the backend object with exactly one field added, `_debug`: every
key other than `_debug` keeps its backend value, `_debug` holds the debug
metadata (sent payload, endpoint used, config subset), and when the
backend response has no `_debug` field the result is literally the
backend fields followed by the new `_debug` entry. -/
theorem C5_success_passthrough (config : OnlysaidKBConfig)
    (ws q : String) (kb ch : Option (List String)) (m pl mid : Option String)
    (tk : Option Int) (fields : List (String × JValue)) :
    let qres := query_knowledge_base config ws q kb m ch tk pl mid
      (.success (.obj fields))
    let rres := retrieve_from_knowledge_base config ws q kb tk
      (.success (.obj fields))
    let qdbg := queryDebugSuccess config
      (buildQueryPayload ws q kb m ch tk pl mid)
    let rdbg := retrieveDebugSuccess config
      (buildRetrievePayload config ws q kb tk)
    (∀ k, k ≠ "_debug" → lookupField qres k = lookupField fields k) ∧
    lookupField qres "_debug" = some qdbg ∧
    ("_debug" ∉ fields.map Prod.fst → qres = fields ++ [("_debug", qdbg)]) ∧
    (∀ k, k ≠ "_debug" → lookupField rres k = lookupField fields k) ∧
    lookupField rres "_debug" = some rdbg ∧
    ("_debug" ∉ fields.map Prod.fst → rres = fields ++ [("_debug", rdbg)]) := by
  refine ⟨?_, ?_, ?_, ?_, ?_, ?_⟩
  · exact fun k hk => lookupField_setField_ne fields k "_debug" _ (Ne.symm hk)
  · exact lookupField_setField_self fields "_debug" _
  · exact fun h => setField_not_mem fields "_debug" _ h
  · exact fun k hk => lookupField_setField_ne fields k "_debug" _ (Ne.symm hk)
  · exact lookupField_setField_self fields "_debug" _
  · exact fun h => setField_not_mem fields "_debug" _ h

/-- Witness for C5 at concrete inputs: the mock-backend scenario of the
spec, a response `{status: "ok", answer: "hi"}` passes through unchanged
with `_debug` appended. -/
theorem C5_success_passthrough_witness :
    (lookupField (query_knowledge_base cfgEx "w" "q" none none none none
        none none (.success (.obj [("status", .str "ok"), ("answer", .str "hi")])))
      "answer" = some (.str "hi")) ∧
    (query_knowledge_base cfgEx "w" "q" none none none none none none
        (.success (.obj [("status", .str "ok"), ("answer", .str "hi")])) =
      [("status", .str "ok"), ("answer", .str "hi"),
       ("_debug", queryDebugSuccess cfgEx
         (buildQueryPayload "w" "q" none none none none none none))]) ∧
    (lookupField (retrieve_from_knowledge_base cfgEx "w" "q" none none
        (.success (.obj [("results", .arr [])]))) "results" = some (.arr [])) :=
  ⟨(C5_success_passthrough cfgEx "w" "q" none none none none none none
      [("status", .str "ok"), ("answer", .str "hi")]).1 "answer" (by decide),
   (C5_success_passthrough cfgEx "w" "q" none none none none none none
      [("status", .str "ok"), ("answer", .str "hi")]).2.2.1 (by decide),
   (C5_success_passthrough cfgEx "w" "q" none none none none none none
      [("results", .arr [])]).2.2.2.1 "results" (by decide)⟩

/-- C6: for every input and every HTTP outcome, `query_knowledge_base`
returns either a mapping whose `_debug.endpoint_used` is "/query" and
whose `_debug.query_parameters.streaming` is `false`, or a mapping
containing an `error` key. -/
theorem C6_query_dichotomy (config : OnlysaidKBConfig)
    (ws q : String) (kb ch : Option (List String)) (m pl mid : Option String)
    (tk : Option Int) (outcome : ApiOutcome) :
    let res := query_knowledge_base config ws q kb m ch tk pl mid outcome
    (debugGet res "endpoint_used" = some (.str "/query") ∧
     debugGet2 res "query_parameters" "streaming" = some (.bool false)) ∨
    lookupField res "error" ≠ none := by
  cases outcome with
  | success v =>
      cases v with
      | obj fields =>
          left
          constructor
          · show ((lookupField (setField fields "_debug" _) "_debug").bind _) = _
            rw [lookupField_setField_self]
            rfl
          · show ((((lookupField (setField fields "_debug" _) "_debug").bind _).bind _)) = _
            rw [lookupField_setField_self]
            show getField (.obj (buildQueryPayload ws q kb m ch tk pl mid)) "streaming" = _
            show lookupField (buildQueryPayload ws q kb m ch tk pl mid) "streaming" = _
            exact buildQueryPayload_lookup_streaming ws q kb ch m pl mid tk
      | null => right; simp [query_knowledge_base, lookupField]
      | bool b => right; simp [query_knowledge_base, lookupField]
      | num n => right; simp [query_knowledge_base, lookupField]
      | str s => right; simp [query_knowledge_base, lookupField]
      | arr xs => right; simp [query_knowledge_base, lookupField]
  | statusError s t => right; simp [query_knowledge_base, lookupField]
  | generalError m2 => right; simp [query_knowledge_base, lookupField]

/-- C7: evaluation of the configuration construction with
`ONLYSAIDKB_BASE_URL` absent from the environment.  The claim says the
base URL is required with no default; the source instead substitutes the
literal fallback "http://onlysaid-dev.com/api/kb", masking the missing
required setting (the four optional settings do take the literal defaults
gpt-4, 5, en and 30). -/
theorem C7_base_url_default_masks :
    configLoad (fun _ => none) =
      some { base_url := "http://onlysaid-dev.com/api/kb"
             default_model := "gpt-4"
             default_top_k := 5
             default_language := "en"
             timeout := 30 } := by
  decide

/-- C8: when `ONLYSAIDKB_BASE_URL` is absent (or empty) the startup path
exits with code 1, the diagnostic names exactly that missing setting, and
the server (hence any backend connection) is never started; when it is
present and non-empty, startup proceeds to run the server. -/
theorem C8_startup_fail_fast (env : String → Option String) :
    (env "ONLYSAIDKB_BASE_URL" = none →
       run_server env = .exitCode 1 ∧
       missing_vars env = ["ONLYSAIDKB_BASE_URL"] ∧
       missingVarsMessage (missing_vars env) =
         "[ERROR] Missing required environment variables: ONLYSAIDKB_BASE_URL") ∧
    (∀ v, env "ONLYSAIDKB_BASE_URL" = some v → v ≠ "" →
       run_server env = .serverRunning) := by
  constructor
  · intro h
    have hm : missing_vars env = ["ONLYSAIDKB_BASE_URL"] := by
      simp [missing_vars, required_vars, h]
    refine ⟨?_, hm, ?_⟩
    · simp [run_server, setup_environment, hm]
    · rw [hm]; rfl
  · intro v h hv
    have hm : missing_vars env = [] := by
      simp [missing_vars, required_vars, h, hv]
    simp [run_server, setup_environment, hm]

/-- Witness for C8 at concrete environments: the empty environment exits
with code 1 and names the missing variable; an environment providing a
base URL runs the server. -/
theorem C8_startup_fail_fast_witness :
    run_server (fun _ => none) = .exitCode 1 ∧
    missing_vars (fun _ => none) = ["ONLYSAIDKB_BASE_URL"] ∧
    run_server (fun _ => some "http://localhost:8000") = .serverRunning :=
  ⟨((C8_startup_fail_fast (fun _ => none)).1 rfl).1,
   ((C8_startup_fail_fast (fun _ => none)).1 rfl).2.1,
   (C8_startup_fail_fast (fun _ => some "http://localhost:8000")).2
     "http://localhost:8000" rfl (by decide)⟩

/-- C9: each resource accessor turns any failure into a returned text
value prefixed "Error retrieving <resource>: " followed by the failure
description; on success the knowledge-base list resource serializes only
the `dataSources` field (defaulting to the empty list) while the other
two serialize the whole decoded object. -/
theorem C9_resources_text_contract (e : String)
    (fields : List (String × JValue)) (v : JValue) :
    list_knowledge_bases_resource (.error e) =
      "Error retrieving knowledge bases: " ++ e ∧
    knowledge_base_status_resource (.error e) =
      "Error retrieving knowledge base status: " ++ e ∧
    workspace_structure_resource (.error e) =
      "Error retrieving workspace structure: " ++ e ∧
    list_knowledge_bases_resource (.ok (.obj fields)) =
      jsonDumps ((lookupField fields "dataSources").getD (.arr [])) ∧
    knowledge_base_status_resource (.ok v) = jsonDumps v ∧
    workspace_structure_resource (.ok v) = jsonDumps v :=
  ⟨rfl, rfl, rfl, rfl, rfl, rfl⟩

/-- C10: when the backend responds successfully but the decoded JSON value
is not a mapping, attaching `_debug` fails and both operations return a
general_error-shaped object (with no `status_code`) instead of the value;
consequently every returned mapping without an `error` key contains
`_debug`. -/
theorem C10_nonmapping_success (config : OnlysaidKBConfig)
    (ws q : String) (kb ch : Option (List String)) (m pl mid : Option String)
    (tk : Option Int) :
    (∀ v : JValue, v.isObj = false →
       lookupField (query_knowledge_base config ws q kb m ch tk pl mid
         (.success v)) "error" = some (.str (nonMappingAssignMsg v)) ∧
       lookupField (query_knowledge_base config ws q kb m ch tk pl mid
         (.success v)) "status_code" = none ∧
       debugGet (query_knowledge_base config ws q kb m ch tk pl mid
         (.success v)) "error_type" = some (.str "general_error") ∧
       lookupField (retrieve_from_knowledge_base config ws q kb tk
         (.success v)) "error" = some (.str (nonMappingAssignMsg v)) ∧
       lookupField (retrieve_from_knowledge_base config ws q kb tk
         (.success v)) "status_code" = none ∧
       debugGet (retrieve_from_knowledge_base config ws q kb tk
         (.success v)) "error_type" = some (.str "general_error")) ∧
    (∀ outcome : ApiOutcome,
       lookupField (query_knowledge_base config ws q kb m ch tk pl mid
         outcome) "error" = none →
       lookupField (query_knowledge_base config ws q kb m ch tk pl mid
         outcome) "_debug" ≠ none) ∧
    (∀ outcome : ApiOutcome,
       lookupField (retrieve_from_knowledge_base config ws q kb tk
         outcome) "error" = none →
       lookupField (retrieve_from_knowledge_base config ws q kb tk
         outcome) "_debug" ≠ none) := by
  refine ⟨?_, ?_, ?_⟩
  · intro v hv
    cases v with
    | obj fields => simp [JValue.isObj] at hv
    | null => exact ⟨rfl, rfl, rfl, rfl, rfl, rfl⟩
    | bool b => exact ⟨rfl, rfl, rfl, rfl, rfl, rfl⟩
    | num n => exact ⟨rfl, rfl, rfl, rfl, rfl, rfl⟩
    | str s => exact ⟨rfl, rfl, rfl, rfl, rfl, rfl⟩
    | arr xs => exact ⟨rfl, rfl, rfl, rfl, rfl, rfl⟩
  · intro outcome h
    cases outcome with
    | success v =>
        cases v with
        | obj fields =>
            rw [show query_knowledge_base config ws q kb m ch tk pl mid
                  (.success (.obj fields)) = setField fields "_debug" _ from rfl]
            rw [lookupField_setField_self]
            exact Option.some_ne_none _
        | null => exact absurd h (by simp [query_knowledge_base, lookupField])
        | bool b => exact absurd h (by simp [query_knowledge_base, lookupField])
        | num n => exact absurd h (by simp [query_knowledge_base, lookupField])
        | str s => exact absurd h (by simp [query_knowledge_base, lookupField])
        | arr xs => exact absurd h (by simp [query_knowledge_base, lookupField])
    | statusError s t => exact absurd h (by simp [query_knowledge_base, lookupField])
    | generalError m2 => exact absurd h (by simp [query_knowledge_base, lookupField])
  · intro outcome h
    cases outcome with
    | success v =>
        cases v with
        | obj fields =>
            rw [show retrieve_from_knowledge_base config ws q kb tk
                  (.success (.obj fields)) = setField fields "_debug" _ from rfl]
            rw [lookupField_setField_self]
            exact Option.some_ne_none _
        | null => exact absurd h (by simp [retrieve_from_knowledge_base, lookupField])
        | bool b => exact absurd h (by simp [retrieve_from_knowledge_base, lookupField])
        | num n => exact absurd h (by simp [retrieve_from_knowledge_base, lookupField])
        | str s => exact absurd h (by simp [retrieve_from_knowledge_base, lookupField])
        | arr xs => exact absurd h (by simp [retrieve_from_knowledge_base, lookupField])
    | statusError s t => exact absurd h (by simp [retrieve_from_knowledge_base, lookupField])
    | generalError m2 => exact absurd h (by simp [retrieve_from_knowledge_base, lookupField])

/-- Witness for C10 at concrete inputs: a top-level JSON list from the
backend yields a general_error result, and a successful mapping response
carries `_debug`. -/
theorem C10_nonmapping_success_witness :
    lookupField (query_knowledge_base cfgEx "w" "q" none none none none none
      none (.success (.arr []))) "error" =
      some (.str "list indices must be integers or slices, not str") ∧
    lookupField (query_knowledge_base cfgEx "w" "q" none none none none none
      none (.success (.obj []))) "_debug" ≠ none :=
  ⟨((C10_nonmapping_success cfgEx "w" "q" none none none none none none).1
      (.arr []) rfl).1,
   (C10_nonmapping_success cfgEx "w" "q" none none none none none none).2.1
      (.success (.obj [])) rfl⟩
